import Mathlib

/-!
Verification of the lockbox-datastore core against its natural-language
specification.

The development shallowly embeds the JavaScript sources:

* `src/lib/datastore.js` (the `DataStore` orchestrator),
* the current `ItemKeyStore` snapshot (`load/save/clear/all/get/add/delete/
  protect/unprotect`),
* the current `items.js` snapshot (`prepare`, the joi schema, the
  json-merge-patch history generation), and
* the current `localdatabase.js` snapshot (`open`, versions 0.1 / 0.2).

Modelling conventions:

* JavaScript `Map`s and Dexie tables become association lists keyed by
  strings (`getKV` / `setKV` / `delKV` mirror `Map.get` / `Map.set` and
  Dexie `get` / `put` / `delete`; `Map.set` of a fresh key appends, of an
  existing key updates in place, exactly as `setKV` does).
* The jose cryptography is symbolic: a JWE ciphertext is a pair of the
  encrypting key and the plaintext, and decryption succeeds exactly when
  the keys match.  `JSON.stringify` followed by `JSON.parse` on plain data
  is the identity, so the plaintext is carried as a structured value.
  Key derivation is an injective function of the application key and salt
  (HKDF with distinct info strings is modelled by distinct constructors),
  and random key generation draws from an explicit freshness counter.
* Operations are state passing: each returns the JavaScript-observable
  post state together with `Except Err α`.  A thrown JS exception does not
  roll back prior mutations, so error results carry the state at throw
  time.
-/

/-- Lookup in an association list, mirroring JavaScript `Map.get` and a
Dexie table `get` by primary key. -/
def getKV {α : Type} : List (String × α) → String → Option α
  | [], _ => none
  | (k, v) :: rest, key => if k = key then some v else getKV rest key

/-- Insert or replace in an association list, mirroring `Map.set` and Dexie
`put`: an existing key is updated in place, a new key is appended. -/
def setKV {α : Type} : List (String × α) → String → α → List (String × α)
  | [], key, v => [(key, v)]
  | (k, w) :: rest, key, v =>
    if k = key then (key, v) :: rest else (k, w) :: setKV rest key v

/-- Delete from an association list, mirroring `Map.delete` and Dexie
table `delete`. -/
def delKV {α : Type} : List (String × α) → String → List (String × α)
  | [], _ => []
  | (k, w) :: rest, key =>
    if k = key then rest else (k, w) :: delKV rest key

theorem getKV_setKV_self {α : Type} (l : List (String × α)) (k : String) (v : α) :
    getKV (setKV l k v) k = some v := by
  induction l with
  | nil => simp [getKV, setKV]
  | cons hd tl ih =>
    obtain ⟨k0, v0⟩ := hd
    by_cases h : k0 = k
    · simp [getKV, setKV, h]
    · simp [getKV, setKV, h, ih]

/-- Reason strings of `DataStoreError` (`src/lib/util/errors.js`, the
`REASONS` array). -/
inductive Reason where
  | LOCALDB_VERSION
  | NOT_INITIALIZED
  | INITIALIZED
  | MISSING_APP_KEY
  | WRONG_APP_KEY
  | LOCKED
  | INVALID_ITEM
  | MISSING_ITEM
  | CRYPTO
  | OFFLINE
  | AUTH
  | NETWORK
  | SYNC_LOCKED
  | GENERIC_ERROR
deriving DecidableEq, Repr

/-- Thrown values: `DataStoreError(reason, message)` from
`src/lib/util/errors.js`, plain `Error(message)` thrown by the
`ItemKeyStore`, and failures raised inside the jose decryption
primitives. -/
inductive Err where
  | ds (reason : Reason) (message : Option String)
  | js (message : String)
  | cryptoFailure
deriving DecidableEq, Repr

/-- Symbolic key material.  HKDF derivation with the two distinct info
strings of `datastore.js` yields independent keys, modelled by distinct
injective constructors; `jose.JWK.createKeyStore().generate` yields fresh
random material, modelled by a freshness counter. -/
inductive KeyMaterial where
  | derivedEncrypt (appKey : String) (salt : String)
  | derivedHashing (appKey : String) (salt : String)
  | generated (n : Nat)
deriving DecidableEq, Repr

/-- Symbolic `jose.JWK.Key` (an A256GCM octet key). -/
structure JWK where
  material : KeyMaterial
  kid : String
deriving DecidableEq, Repr

/-- One typed entry of an item (the single `login` variant of the joi
entry schema in `items.js`, after defaults are applied). -/
structure Entry where
  kind : String
  username : String
  password : String
  notes : String
deriving DecidableEq, Repr

/-- A JSON merge patch over an `Entry`, as produced by
`jsonmergepatch.generate` on two flat normalized entry objects: a field is
present exactly when it differs, carrying the source value. -/
structure Patch where
  kind : Option String
  username : Option String
  password : Option String
  notes : Option String
deriving DecidableEq, Repr

/-- One history element: a creation timestamp and the reverse merge patch
(`items.js` `prepare`). -/
structure HistoryEntry where
  created : String
  patch : Patch
deriving DecidableEq, Repr

/-- A normalized item, as produced by `items.js` `prepare`. -/
structure Item where
  id : String
  title : String
  origins : List String
  tags : List String
  entry : Entry
  disabled : Bool
  created : String
  modified : String
  history : List HistoryEntry
deriving DecidableEq, Repr

/-- A caller-supplied candidate entry before validation (`none` models an
absent or null JavaScript field). -/
structure CandidateEntry where
  kind : Option String := none
  username : Option String := none
  password : Option String := none
  notes : Option String := none
deriving DecidableEq, Repr

/-- A caller-supplied candidate item before validation.  Fields outside
the joi schema whitelist are stripped by `stripUnknown`, except `id`,
which `DataStore.update` inspects before validating. -/
structure Candidate where
  id : Option String := none
  title : Option String := none
  origins : Option (List String) := none
  tags : Option (List String) := none
  entry : Option CandidateEntry := none
deriving DecidableEq, Repr

/-- Validation of one optional string field against
`joi.string().max(maxLen).allow("").allow(null).default("")`. -/
def validStr (maxLen : Nat) : Option String → Option String
  | none => some ""
  | some s => if s.length ≤ maxLen then some s else none

/-- Validation of an optional string-array field against
`joi.array().items(STRING_500).max(maxItems).default([])`. -/
def validStrList (maxLen maxItems : Nat) : Option (List String) → Option (List String)
  | none => some []
  | some xs =>
    if xs.length ≤ maxItems ∧ xs.all (fun s => s.length ≤ maxLen)
    then some xs else none

/-- Validation of the required `entry` field against the single `login`
alternative of `ENTRY_SCHEMAS`. -/
def validEntry : Option CandidateEntry → Option Entry
  | none => none
  | some e =>
    match e.kind with
    | some "login" =>
      match validStr 500 e.username, validStr 500 e.password, validStr 10000 e.notes with
      | some u, some p, some n => some { kind := "login", username := u, password := p, notes := n }
      | _, _, _ => none
    | _ => none

/-- Result of a successful `SCHEMA.validate(item, VALIDATE_OPTIONS)`:
the whitelisted fields with defaults applied. -/
structure Validated where
  title : String
  origins : List String
  tags : List String
  entry : Entry
deriving DecidableEq, Repr

/-- The joi item schema of `items.js` with `stripUnknown`. -/
def schemaValidate (c : Candidate) : Option Validated :=
  match validStr 500 c.title, validStrList 500 5 c.origins,
        validStrList 500 10 c.tags, validEntry c.entry with
  | some t, some o, some g, some e =>
    some { title := t, origins := o, tags := g, entry := e }
  | _, _, _, _ => none

/-- Difference of one flat field under `jsonmergepatch.generate`: absent
when equal, otherwise the source value (the patch goes backward). -/
def diffField (dst src : String) : Option String :=
  if dst = src then none else some src

/-- Symbolic `jsonmergepatch.generate(dstEntry, srcEntry)` on two
normalized flat entry objects; `none` models the `undefined` result for
identical entries. -/
def mergePatchGenerate (dst src : Entry) : Option Patch :=
  let p : Patch :=
    { kind := diffField dst.kind src.kind
      username := diffField dst.username src.username
      password := diffField dst.password src.password
      notes := diffField dst.notes src.notes }
  if p = { kind := none, username := none, password := none, notes := none }
  then none else some p

theorem diffField_eq_none_iff (dst src : String) :
    diffField dst src = none ↔ dst = src := by
  simp only [diffField]
  split <;> simp_all

theorem mergePatchGenerate_eq_none_iff (dst src : Entry) :
    mergePatchGenerate dst src = none ↔ dst = src := by
  constructor
  · intro h
    simp only [mergePatchGenerate] at h
    split at h
    · rename_i heq
      have hk := congrArg Patch.kind heq
      have hu := congrArg Patch.username heq
      have hp := congrArg Patch.password heq
      have hn := congrArg Patch.notes heq
      simp only at hk hu hp hn
      rw [diffField_eq_none_iff] at hk hu hp hn
      cases dst; cases src; simp_all
    · simp at h
  · intro h
    subst h
    simp [mergePatchGenerate, diffField]

/-- Symbolic `UUID()`: a fresh identifier drawn from the freshness
counter; never the empty string. -/
def UUID (fresh : Nat) : String := "uuid-" ++ toString fresh

theorem UUID_ne_empty (fresh : Nat) : UUID fresh ≠ "" := by
  intro h
  have h1 := congrArg String.length h
  rw [UUID, String.length_append] at h1
  have h2 : ("uuid-" : String).length = 5 := rfl
  have h3 : ("" : String).length = 0 := rfl
  omega

/-- History cap of `items.js`. -/
def HISTORY_MAX : Nat := 100

/-- Items.prepare from the current `items.js` snapshot: joi validation
with `stripUnknown`, read-only fields copied from the source (or freshly
generated), `modified` always refreshed, and the reverse merge patch
prepended to the truncated prior history unless `generate` returned
`undefined`.  The clock is an explicit `now` argument and `UUID`
generation draws from the freshness counter. -/
def Items.prepare (item : Candidate) (source : Option Item) (now : String)
    (fresh : Nat) : Except Err (Item × Nat) :=
  match schemaValidate item with
  | none => .error (.ds .INVALID_ITEM none)
  | some v =>
    let idFresh : String × Nat :=
      match source with
      | some s => if s.id = "" then (UUID fresh, fresh + 1) else (s.id, fresh)
      | none => (UUID fresh, fresh + 1)
    let disabled : Bool :=
      match source with
      | some s => s.disabled
      | none => false
    let created : String :=
      match source with
      | some s => if s.created = "" then now else s.created
      | none => now
    let history : List HistoryEntry :=
      match source with
      | none => []
      | some s =>
        let h := s.history.take (HISTORY_MAX - 1)
        match mergePatchGenerate v.entry s.entry with
        | none => h
        | some p => { created := now, patch := p } :: h
    .ok ({ id := idFresh.1, title := v.title, origins := v.origins,
           tags := v.tags, entry := v.entry, disabled := disabled,
           created := created, modified := now, history := history },
         idFresh.2)

/-- Symbolic compact JWE of one item, as produced by
`ItemKeyStore.protect`: decryption with the matching key returns the
embedded normalized item (stringify and parse of plain data is the
identity). -/
structure ItemCiphertext where
  key : JWK
  payload : Item
deriving DecidableEq, Repr

/-- Symbolic compact JWE of the serialized item-key map, as produced by
`ItemKeyStore.save` under the master encryption key. -/
structure BlobCiphertext where
  key : JWK
  payload : List (String × JWK)
deriving DecidableEq, Repr

/-- The `ItemKeyStore` instance state (current snapshot): master
encryption key, optional hashing key kept by the constructor, group name,
the encrypted registry blob, and the decrypted listing map. -/
structure ItemKeyStore where
  encryptKey : Option JWK := none
  hashingKey : Option JWK := none
  group : String := ""
  encrypted : Option BlobCiphertext := none
  listing : List (String × JWK) := []
deriving DecidableEq, Repr

/-- Row of the `keystores` table, as produced by `ItemKeyStore.toJSON`. -/
structure KeystoreRecord where
  group : String
  encrypted : Option BlobCiphertext
deriving DecidableEq, Repr

/-- ItemKeyStore.toJSON. -/
def ItemKeyStore.toJSON (ks : ItemKeyStore) : KeystoreRecord :=
  { group := ks.group, encrypted := ks.encrypted }

/-- ItemKeyStore.get: a pure lookup in the listing map. -/
def ItemKeyStore.get (ks : ItemKeyStore) (id : String) : Option JWK :=
  getKV ks.listing id

/-- ItemKeyStore.add: returns the existing key for `id` when one is
known, otherwise generates a fresh A256GCM key with `kid = id` and
records it in the listing.  The freshness counter models
`jose.JWK.createKeyStore().generate`. -/
def ItemKeyStore.add (ks : ItemKeyStore) (fresh : Nat) (id : String) :
    JWK × ItemKeyStore × Nat :=
  match ks.get id with
  | some key => (key, ks, fresh)
  | none =>
    let key : JWK := { material := .generated fresh, kid := id }
    (key, { ks with listing := setKV ks.listing id key }, fresh + 1)

/-- ItemKeyStore.delete: removes the key for `id` from the listing. -/
def ItemKeyStore.delete (ks : ItemKeyStore) (id : String) : ItemKeyStore :=
  { ks with listing := delKV ks.listing id }

/-- ItemKeyStore.all: a snapshot copy of the listing map. -/
def ItemKeyStore.all (ks : ItemKeyStore) : List (String × JWK) :=
  ks.listing

/-- ItemKeyStore.clear: erases the decrypted listing and the master key;
with `all` also drops the encrypted blob. -/
def ItemKeyStore.clear (ks : ItemKeyStore) (all : Bool) : ItemKeyStore :=
  { ks with listing := [], encryptKey := none,
            encrypted := if all then none else ks.encrypted }

/-- ItemKeyStore.save: serializes the listing and encrypts it under the
master encryption key, storing the result as the new blob.  Throws
`Error("invalid master key")` when no key is held. -/
def ItemKeyStore.save (ks : ItemKeyStore) : Except Err ItemKeyStore :=
  match ks.encryptKey with
  | none => .error (.js "invalid master key")
  | some key => .ok { ks with encrypted := some { key := key, payload := ks.listing } }

/-- ItemKeyStore.load: decrypts the stored blob with the supplied or
previously held master key, replaces the listing with the decrypted map
and remembers the key.  All mutations happen after decryption succeeds,
so a failure leaves the store untouched; the caller therefore keeps its
prior state on `.error`. -/
def ItemKeyStore.load (ks : ItemKeyStore) (master : Option JWK) :
    Except Err ItemKeyStore :=
  match (match master with | some m => some m | none => ks.encryptKey) with
  | none => .error (.js "invalid master key")
  | some key =>
    match ks.encrypted with
    | none => .error (.js "not encrypted")
    | some blob =>
      if blob.key = key then
        .ok { ks with listing := blob.payload, encryptKey := some key }
      else
        .error .cryptoFailure

/-- ItemKeyStore.protect: rejects an item with a falsy `id`, obtains the
item key via `add` (creating it when absent), and encrypts the serialized
item under that key. -/
def ItemKeyStore.protect (ks : ItemKeyStore) (fresh : Nat) (item : Item) :
    Except Err (ItemCiphertext × ItemKeyStore × Nat) :=
  if item.id = "" then .error (.js "invalid item")
  else
    let r := ks.add fresh item.id
    .ok ({ key := r.1, payload := item }, r.2.1, r.2.2)

/-- ItemKeyStore.unprotect: rejects a missing ciphertext, fails with
`Error("unknown item key")` when no key is known for `id`, otherwise
decrypts with the stored key and parses the payload. -/
def ItemKeyStore.unprotect (ks : ItemKeyStore) (id : String)
    (jwe : Option ItemCiphertext) : Except Err Item :=
  match jwe with
  | none => .error (.js "invalid encrypted item")
  | some c =>
    match ks.get id with
    | none => .error (.js "unknown item key")
    | some key =>
      if c.key = key then .ok c.payload else .error .cryptoFailure

/-- deriveKeys from `datastore.js`: fails with `MISSING_APP_KEY` when the
application key is absent, otherwise HKDF-SHA-256 with the two
domain-separated info strings yields the deterministic encryption and
hashing keys. -/
def deriveKeys (appKey : Option String) (salt : String) :
    Except Err (JWK × JWK) :=
  match appKey with
  | none => .error (.ds .MISSING_APP_KEY none)
  | some k =>
    .ok ({ material := .derivedEncrypt k salt, kid := "" },
         { material := .derivedHashing k salt, kid := "" })

/-- Row of the Dexie `items` table: the primary key `id` is the
association-list key, the row carries the active flag and the encrypted
payload. -/
structure DbRecord where
  active : String
  encrypted : ItemCiphertext
deriving DecidableEq, Repr

/-- The opened local database: the `items` table keyed by item id and the
`keystores` table keyed by group. -/
structure LDB where
  items : List (String × DbRecord)
  keystores : List (String × KeystoreRecord)
deriving DecidableEq, Repr

/-- The prepared `DataStore` instance state: the opened local database,
the item key store, the salt, and the freshness counter that models the
random sources (UUID and key generation). -/
structure DataStore where
  ldb : LDB
  keystore : ItemKeyStore
  salt : String
  fresh : Nat
deriving DecidableEq, Repr

/-- DataStore.initialized getter: the keystore has an encrypted blob. -/
def DataStore.initialized (st : DataStore) : Bool :=
  st.keystore.encrypted.isSome

/-- DataStore.locked getter: no master encryption key is held. -/
def DataStore.locked (st : DataStore) : Bool :=
  st.keystore.encryptKey.isNone

/-- checkState from `datastore.js`: raised synchronously at the top of
every CRUD operation, before any backend access. -/
def checkState (st : DataStore) (unlocking : Bool) : Except Err Unit :=
  if st.initialized = false then .error (.ds .NOT_INITIALIZED none)
  else if unlocking = false ∧ st.locked = true then .error (.ds .LOCKED none)
  else .ok ()

/-- DataStore.lock: clears the keystore (listing and master key), keeping
the encrypted blob. -/
def DataStore.lock (st : DataStore) : DataStore :=
  { st with keystore := st.keystore.clear false }

/-- DataStore.unlock: `checkState(this, true)`, an early return when
already unlocked, otherwise key derivation followed by a registry load;
any failure is rethrown unchanged (`catch (err) ... throw err`) and, since
neither `deriveKeys` nor a failing `load` mutates anything, the store
state is unchanged on error. -/
def DataStore.unlock (st : DataStore) (appKey : Option String) :
    DataStore × Except Err Unit :=
  match checkState st true with
  | .error e => (st, .error e)
  | .ok _ =>
    if st.locked = false then (st, .ok ())
    else
      match deriveKeys appKey st.salt with
      | .error e => (st, .error e)
      | .ok (encryptKey, _hashingKey) =>
        match st.keystore.load (some encryptKey) with
        | .error e => (st, .error e)
        | .ok ks1 => ({ st with keystore := ks1 }, .ok ())

/-- Options object of DataStore.initialize. -/
structure InitOpts where
  appKey : Option String := none
  salt : Option String := none
  rebase : Bool := false
deriving DecidableEq, Repr

/-- DataStore.initialize: an already initialized store requires `rebase`
(else `INITIALIZED`) and must be unlocked (else `LOCKED`); when rebasing,
the full item-key listing is read out first via `keystore.all()`.  New
keys are derived from the application key and the effective salt, a fresh
`ItemKeyStore` is built carrying the migrated listing, saved, and its
JSON row is put into the `keystores` table.  The `items` table is never
touched. -/
def DataStore.initialize (st : DataStore) (opts : InitOpts) :
    DataStore × Except Err Unit :=
  match (if st.keystore.encrypted.isSome then
           if opts.rebase = false then
             Except.error (Err.ds .INITIALIZED none)
           else if st.locked = true then
             Except.error (Err.ds .LOCKED (some "must be unlocked in order to rebase"))
           else
             Except.ok (some st.keystore.all)
         else Except.ok none) with
  | .error e => (st, .error e)
  | .ok listing =>
    let salt : String :=
      match opts.salt with
      | some s => s
      | none => st.salt
    match deriveKeys opts.appKey salt with
    | .error e => (st, .error e)
    | .ok (encryptKey, hashingKey) =>
      let ks0 : ItemKeyStore :=
        { encryptKey := some encryptKey, hashingKey := some hashingKey,
          group := "", encrypted := none,
          listing := match listing with | some l => l | none => [] }
      match ks0.save with
      | .error e => (st, .error e)
      | .ok ks1 =>
        ({ st with keystore := ks1, salt := salt,
                   ldb := { st.ldb with
                            keystores := setKV st.ldb.keystores ks1.group ks1.toJSON } },
         .ok ())

/-- DataStore.list: after `checkState`, reads every row of the `items`
table and unprotects each; a single failure rejects the whole
`Promise.all`. -/
def DataStore.list (st : DataStore) :
    DataStore × Except Err (List (String × Item)) :=
  match checkState st false with
  | .error e => (st, .error e)
  | .ok _ =>
    (st, st.ldb.items.mapM (fun r =>
      (st.keystore.unprotect r.1 (some r.2.encrypted)).map (fun item => (r.1, item))))

/-- DataStore.get: after `checkState`, reads the row for `id` and
unprotects it; a missing row yields `null`, not an error. -/
def DataStore.get (st : DataStore) (id : String) :
    DataStore × Except Err (Option Item) :=
  match checkState st false with
  | .error e => (st, .error e)
  | .ok _ =>
    match getKV st.ldb.items id with
    | none => (st, .ok none)
    | some r =>
      match st.keystore.unprotect id (some r.encrypted) with
      | .error e => (st, .error e)
      | .ok item => (st, .ok (some item))

/-- DataStore.add: after `checkState` and the falsy-item check, the
candidate is normalized by `Items.prepare` (fresh id), protected under
its item key, the keystore is saved, and one transaction adds the item
row and puts the keystore row.  Dexie `Table.add` rejects a duplicate
primary key, aborting the transaction.  The metrics hook is not part of
the persisted state and is not modelled. -/
def DataStore.add (st : DataStore) (item : Option Candidate) (now : String) :
    DataStore × Except Err Item :=
  match checkState st false with
  | .error e => (st, .error e)
  | .ok _ =>
    match item with
    | none => (st, .error (.ds .INVALID_ITEM none))
    | some cand =>
      match Items.prepare cand none now st.fresh with
      | .error e => (st, .error e)
      | .ok (it, fresh1) =>
        let active : String := if it.disabled then "" else "active"
        match st.keystore.protect fresh1 it with
        | .error e => ({ st with fresh := fresh1 }, .error e)
        | .ok (enc, ks1, fresh2) =>
          match ks1.save with
          | .error e => ({ st with keystore := ks1, fresh := fresh2 }, .error e)
          | .ok ks2 =>
            match getKV st.ldb.items it.id with
            | some _ =>
              ({ st with keystore := ks2, fresh := fresh2 },
               .error (.js "ConstraintError"))
            | none =>
              ({ st with
                 keystore := ks2, fresh := fresh2,
                 ldb := { items := setKV st.ldb.items it.id
                            { active := active, encrypted := enc },
                          keystores := setKV st.ldb.keystores ks2.group ks2.toJSON } },
               .ok it)

/-- DataStore.update: after `checkState` and the falsy-id check, the
stored row is loaded (else `MISSING_ITEM`) and unprotected, the candidate
is normalized against it, re-protected, and only the item row is put —
there is no keystore save and no keystores-table write.  The change-set
computed for the metrics hook does not affect the persisted state and is
not modelled. -/
def DataStore.update (st : DataStore) (item : Option Candidate) (now : String) :
    DataStore × Except Err Item :=
  match checkState st false with
  | .error e => (st, .error e)
  | .ok _ =>
    match item with
    | none => (st, .error (.ds .INVALID_ITEM none))
    | some cand =>
      match cand.id with
      | none => (st, .error (.ds .INVALID_ITEM none))
      | some id =>
        if id = "" then (st, .error (.ds .INVALID_ITEM none))
        else
          match getKV st.ldb.items id with
          | none => (st, .error (.ds .MISSING_ITEM none))
          | some orig =>
            match st.keystore.unprotect id (some orig.encrypted) with
            | .error e => (st, .error e)
            | .ok origItem =>
              match Items.prepare cand (some origItem) now st.fresh with
              | .error e => (st, .error e)
              | .ok (it, fresh1) =>
                let active : String := if it.disabled then "" else "active"
                match st.keystore.protect fresh1 it with
                | .error e => ({ st with fresh := fresh1 }, .error e)
                | .ok (enc, ks1, fresh2) =>
                  ({ st with
                     keystore := ks1, fresh := fresh2,
                     ldb := { st.ldb with
                              items := setKV st.ldb.items id
                                { active := active, encrypted := enc } } },
                   .ok it)

/-- DataStore.remove: after `checkState`, a missing row returns `null`
with no further effect.  Otherwise the row is unprotected for the return
value, the item key is deleted and the keystore saved, and one
transaction deletes the item row and puts the updated keystore row. -/
def DataStore.remove (st : DataStore) (id : String) :
    DataStore × Except Err (Option Item) :=
  match checkState st false with
  | .error e => (st, .error e)
  | .ok _ =>
    match getKV st.ldb.items id with
    | none => (st, .ok none)
    | some r =>
      match st.keystore.unprotect id (some r.encrypted) with
      | .error e => (st, .error e)
      | .ok item =>
        let ks1 := st.keystore.delete id
        match ks1.save with
        | .error e => ({ st with keystore := ks1 }, .error e)
        | .ok ks2 =>
          ({ st with
             keystore := ks2,
             ldb := { items := delKV st.ldb.items id,
                      keystores := setKV st.ldb.keystores ks2.group ks2.toJSON } },
           .ok (some item))

/-- Current `localdatabase.js` database version, in tenths: `2` stands
for `0.2` (Dexie itself scales versions by ten). -/
def DATABASE_VERSION : Nat := 2

/-- Errors surfaced by Dexie `db.open()`. -/
inductive DexieError where
  | versionError
  | other (message : String)
deriving DecidableEq, Repr

/-- Modelled behavior of Dexie `db.open()` for a database declaring
schema versions up to `declared` (here 0.1 and 0.2 via `VERSIONS`): an
on-disk version above the highest declared version raises
`Dexie.VersionError`; an equal or lower on-disk version opens, applying
the declared upgrades in order, and the opened database reports the
highest declared version. -/
def dexieOpen (declared onDisk : Nat) : Except DexieError Nat :=
  if declared < onDisk then .error .versionError
  else .ok declared

/-- localdatabase.open of the current snapshot: sets up versions 0.1 and
0.2, opens the Dexie database, maps `Dexie.VersionError` to a
`DataStoreError` with reason `LOCALDB_VERSION` and any other open failure
to `GENERIC_ERROR`.  The bucket is represented by its on-disk database
version. -/
def localdbOpen (onDisk : Nat) : Except Err Nat :=
  match dexieOpen DATABASE_VERSION onDisk with
  | .error .versionError => .error (.ds .LOCALDB_VERSION none)
  | .error (.other m) => .error (.ds .GENERIC_ERROR (some m))
  | .ok v => .ok v

/-- Helper: after `ItemKeyStore.add`, the returned key is exactly the one
recorded in the listing for `id`. -/
theorem ItemKeyStore.add_get_self (ks : ItemKeyStore) (fresh : Nat) (id : String) :
    (ks.add fresh id).2.1.get id = some (ks.add fresh id).1 := by
  unfold ItemKeyStore.add
  match h : ks.get id with
  | some key => simp [h]
  | none => simp [h, ItemKeyStore.get, getKV_setKV_self]

/-- Helper: a successful `Items.prepare` against a source item with a
truthy id keeps that id and consumes no randomness. -/
theorem Items.prepare_id_of_source (c : Candidate) (s : Item) (now : String)
    (fresh : Nat) (it : Item) (fresh1 : Nat)
    (hs : s.id ≠ "")
    (h : Items.prepare c (some s) now fresh = .ok (it, fresh1)) :
    it.id = s.id ∧ fresh1 = fresh := by
  unfold Items.prepare at h
  match hv : schemaValidate c with
  | none => simp [hv] at h
  | some v =>
    simp only [hv, hs, if_neg hs] at h
    obtain ⟨h1, h2⟩ := Prod.mk.injEq .. ▸ (Except.ok.injEq .. ▸ h)
    constructor
    · rw [← h1]; simp
    · rw [← h2]; simp

/-- Example item key. -/
def exKey : JWK := { material := .generated 0, kid := "item-1" }

/-- Example normalized item. -/
def exItem : Item :=
  { id := "item-1", title := "My Item", origins := [], tags := [],
    entry := { kind := "login", username := "foo", password := "bar", notes := "" },
    disabled := false, created := "2018-01-01", modified := "2018-01-01",
    history := [] }

/-- Example encrypted item row. -/
def exRec : DbRecord :=
  { active := "active", encrypted := { key := exKey, payload := exItem } }

/-- Example master encryption key, derived from application key "right"
and salt "salt0". -/
def exMaster : JWK := { material := .derivedEncrypt "right" "salt0", kid := "" }

/-- Example registry blob holding the key for the example item. -/
def exBlob : BlobCiphertext := { key := exMaster, payload := [("item-1", exKey)] }

/-- Example unlocked keystore. -/
def exKeystore : ItemKeyStore :=
  { encryptKey := some exMaster, hashingKey := none, group := "",
    encrypted := some exBlob, listing := [("item-1", exKey)] }

/-- Example initialized, unlocked store holding one item. -/
def exStore : DataStore :=
  { ldb := { items := [("item-1", exRec)],
             keystores := [("", { group := "", encrypted := some exBlob })] },
    keystore := exKeystore, salt := "salt0", fresh := 10 }

/-- Example initialized but locked store (the state after
`exStore.lock`). -/
def exStoreLocked : DataStore := exStore.lock

/-- Example store that was never initialized. -/
def exStoreUninit : DataStore :=
  { ldb := { items := [], keystores := [] },
    keystore := { encryptKey := none, hashingKey := none, group := "",
                  encrypted := none, listing := [] },
    salt := "", fresh := 0 }

/-- Example candidate for add. -/
def exCand : Candidate :=
  { entry := some { kind := some "login", username := some "foo",
                    password := some "bar", notes := none } }

/-- C1: on an initialized but locked store, each of list, get, add,
update and remove fails with a `DataStoreError` of reason `LOCKED` and
returns the store state unchanged (so no persistence write happens and
no backend access is reached, `checkState` being the first statement of
each operation); on a store that is not initialized each fails with
reason `NOT_INITIALIZED`, again with the state unchanged. -/
theorem C1_checkState_guards_crud (st : DataStore) (id : String)
    (cand : Option Candidate) (now : String) :
    (st.initialized = true → st.locked = true →
      st.list = (st, .error (.ds .LOCKED none)) ∧
      st.get id = (st, .error (.ds .LOCKED none)) ∧
      st.add cand now = (st, .error (.ds .LOCKED none)) ∧
      st.update cand now = (st, .error (.ds .LOCKED none)) ∧
      st.remove id = (st, .error (.ds .LOCKED none))) ∧
    (st.initialized = false →
      st.list = (st, .error (.ds .NOT_INITIALIZED none)) ∧
      st.get id = (st, .error (.ds .NOT_INITIALIZED none)) ∧
      st.add cand now = (st, .error (.ds .NOT_INITIALIZED none)) ∧
      st.update cand now = (st, .error (.ds .NOT_INITIALIZED none)) ∧
      st.remove id = (st, .error (.ds .NOT_INITIALIZED none))) := by
  constructor
  · intro hInit hLock
    refine ⟨?_, ?_, ?_, ?_, ?_⟩ <;>
      simp [DataStore.list, DataStore.get, DataStore.add, DataStore.update,
            DataStore.remove, checkState, hInit, hLock]
  · intro hInit
    refine ⟨?_, ?_, ?_, ?_, ?_⟩ <;>
      simp [DataStore.list, DataStore.get, DataStore.add, DataStore.update,
            DataStore.remove, checkState, hInit]

/-- Witness for C1 at a concrete locked store and a concrete
uninitialized store. -/
theorem C1_checkState_guards_crud_witness :
    exStoreLocked.add (some exCand) "now" = (exStoreLocked, .error (.ds .LOCKED none)) ∧
    exStoreUninit.add (some exCand) "now" = (exStoreUninit, .error (.ds .NOT_INITIALIZED none)) :=
  ⟨(((C1_checkState_guards_crud exStoreLocked "item-1" (some exCand) "now").1
      (by decide) (by decide)).2.2.1),
   (((C1_checkState_guards_crud exStoreUninit "item-1" (some exCand) "now").2
      (by decide)).2.2.1)⟩

/-- C10: on an initialized store that is already unlocked, `unlock`
returns successfully for every application key — present, absent or
wrong — via the early `if (!this.locked) return this` branch, without
reaching key derivation or registry decryption, and the store state
(keystore, listing, persisted tables) is returned unchanged. -/
theorem C10_unlock_fast_win (st : DataStore) (appKey : Option String)
    (hInit : st.initialized = true) (hUnlocked : st.locked = false) :
    st.unlock appKey = (st, .ok ()) := by
  simp [DataStore.unlock, checkState, hInit, hUnlocked]

/-- Witness for C10: the example unlocked store, with no key at all and
with a wrong key. -/
theorem C10_unlock_fast_win_witness :
    exStore.unlock none = (exStore, .ok ()) ∧
    exStore.unlock (some "wrong") = (exStore, .ok ()) :=
  ⟨C10_unlock_fast_win exStore none (by decide) (by decide),
   C10_unlock_fast_win exStore (some "wrong") (by decide) (by decide)⟩

/-- Helper: `ItemKeyStore.add` returns an already known key unchanged,
with the keystore and freshness counter untouched. -/
theorem ItemKeyStore.add_of_get_some (ks : ItemKeyStore) (fresh : Nat)
    (id : String) (k : JWK) (h : ks.get id = some k) :
    ks.add fresh id = (k, ks, fresh) := by
  unfold ItemKeyStore.add
  simp [h]

/-- C4: calling `ItemKeyStore.add` twice for the same id returns the same
item key both times, and the second call leaves the key map and the
randomness source exactly as the first call left them — an existing key
is returned as is, never regenerated. -/
theorem C4_add_idempotent (ks : ItemKeyStore) (fresh : Nat) (id : String) :
    (ks.add fresh id).2.1.add (ks.add fresh id).2.2 id =
      ((ks.add fresh id).1, (ks.add fresh id).2.1, (ks.add fresh id).2.2) :=
  ItemKeyStore.add_of_get_some _ _ _ _ (ItemKeyStore.add_get_self ks fresh id)

/-- C3: for every item with a truthy string id, protecting it and then
unprotecting the resulting ciphertext (in the keystore state left by
protect, which holds the item key that protect used or created) returns
the item unchanged — serialization, per-item-key encryption, decryption
and parsing compose to the identity. -/
theorem C3_protect_unprotect_roundtrip (ks : ItemKeyStore) (fresh : Nat)
    (I : Item) (enc : ItemCiphertext) (ks1 : ItemKeyStore) (fresh1 : Nat)
    (hid : I.id ≠ "")
    (h : ks.protect fresh I = .ok (enc, ks1, fresh1)) :
    ks1.unprotect I.id (some enc) = .ok I := by
  have hget := ItemKeyStore.add_get_self ks fresh I.id
  unfold ItemKeyStore.protect at h
  rw [if_neg hid] at h
  injection h with h2
  simp only [Prod.mk.injEq] at h2
  obtain ⟨h3, h4, h5⟩ := h2
  subst h3
  subst h4
  simp [ItemKeyStore.unprotect, hget]

/-- Witness for C3: the example item under the example keystore. -/
theorem C3_protect_unprotect_roundtrip_witness :
    exKeystore.unprotect "item-1"
      (some { key := exKey, payload := exItem }) = .ok exItem :=
  C3_protect_unprotect_roundtrip exKeystore 5 exItem
    { key := exKey, payload := exItem } exKeystore 5
    (by decide) (by rfl)

/-- C5: `unlock` on a store that is not initialized fails with reason
`NOT_INITIALIZED`; on an initialized, locked store a key-derivation
failure or a registry decryption failure (wrong application key or
corrupted blob) is rethrown unchanged, and the returned store state is
exactly the input state — still locked, with the in-memory listing still
whatever it was (empty for a locked store). -/
theorem C5_unlock_error_propagation (st : DataStore) (appKey : Option String)
    (e : Err) :
    (st.initialized = false →
      st.unlock appKey = (st, .error (.ds .NOT_INITIALIZED none))) ∧
    (st.initialized = true → st.locked = true →
      (deriveKeys appKey st.salt = .error e →
        st.unlock appKey = (st, .error e)) ∧
      (∀ ek hk, deriveKeys appKey st.salt = .ok (ek, hk) →
        st.keystore.load (some ek) = .error e →
        st.unlock appKey = (st, .error e))) := by
  constructor
  · intro hInit
    simp [DataStore.unlock, checkState, hInit]
  · intro hInit hLock
    constructor
    · intro hDerive
      simp [DataStore.unlock, checkState, hInit, hLock, hDerive]
    · intro ek hk hDerive hLoad
      simp [DataStore.unlock, checkState, hInit, hLock, hDerive, hLoad]

/-- Witness for C5: an uninitialized store, and the example locked store
unlocked with the wrong application key (symbolic decryption failure). -/
theorem C5_unlock_error_propagation_witness :
    exStoreUninit.unlock (some "right") =
      (exStoreUninit, .error (.ds .NOT_INITIALIZED none)) ∧
    exStoreLocked.unlock (some "wrong") = (exStoreLocked, .error .cryptoFailure) :=
  ⟨(C5_unlock_error_propagation exStoreUninit (some "right") .cryptoFailure).1
     (by decide),
   ((C5_unlock_error_propagation exStoreLocked (some "wrong") .cryptoFailure).2
     (by decide) (by decide)).2
     { material := .derivedEncrypt "wrong" "salt0", kid := "" }
     { material := .derivedHashing "wrong" "salt0", kid := "" }
     (by rfl) (by rfl)⟩

/-- C8: every item produced by `Items.prepare` has at most
`HISTORY_MAX = 100` history elements: with no source the history is
empty, and with a source the prior history is truncated to at most 99
elements (`slice(0, HISTORY_MAX - 1)`) and exactly one reverse
merge-patch element is prepended unless the entry content is unchanged
(the `undefined` patch case), in which case nothing is prepended. -/
theorem C8_prepare_history_bounded (c : Candidate) (source : Option Item)
    (now : String) (fresh : Nat) (it : Item) (fresh1 : Nat)
    (h : Items.prepare c source now fresh = .ok (it, fresh1)) :
    it.history.length ≤ HISTORY_MAX ∧
    (source = none → it.history = []) ∧
    (∀ s, source = some s →
      (it.entry = s.entry → it.history = s.history.take (HISTORY_MAX - 1)) ∧
      (it.entry ≠ s.entry →
        ∃ p, mergePatchGenerate it.entry s.entry = some p ∧
          it.history = { created := now, patch := p } ::
            s.history.take (HISTORY_MAX - 1))) := by
  unfold Items.prepare at h
  match hv : schemaValidate c with
  | none => rw [hv] at h; exact absurd h (by simp)
  | some v =>
    rw [hv] at h
    match source with
    | none =>
      simp only at h
      injection h with h2
      obtain ⟨h3, h4⟩ := Prod.mk.injEq .. ▸ h2
      refine ⟨?_, ?_, ?_⟩
      · rw [← h3]; simp [HISTORY_MAX]
      · intro _; rw [← h3]
      · intro s hs; exact absurd hs (by simp)
    | some s =>
      simp only at h
      injection h with h2
      obtain ⟨h3, h4⟩ := Prod.mk.injEq .. ▸ h2
      have hentry : it.entry = v.entry := by rw [← h3]
      have hhist : it.history =
          (match mergePatchGenerate v.entry s.entry with
           | none => s.history.take (HISTORY_MAX - 1)
           | some p => { created := now, patch := p } ::
               s.history.take (HISTORY_MAX - 1)) := by
        rw [← h3]
      have htake : (s.history.take (HISTORY_MAX - 1)).length ≤ HISTORY_MAX - 1 :=
        List.length_take_le ..
      refine ⟨?_, ?_, ?_⟩
      · match hp : mergePatchGenerate v.entry s.entry with
        | none =>
          rw [hhist]
          simp only [hp]
          have hM : HISTORY_MAX = 100 := rfl
          omega
        | some p =>
          rw [hhist]
          simp only [hp, List.length_cons]
          have hM : HISTORY_MAX = 100 := rfl
          omega
      · intro hn; exact absurd hn (by simp)
      · intro s2 hs2
        have hss : s2 = s := by
          injection hs2 with h0
          exact h0.symm
        subst hss
        constructor
        · intro heq
          have hp : mergePatchGenerate v.entry s2.entry = none := by
            rw [mergePatchGenerate_eq_none_iff, ← hentry]
            exact heq
          rw [hhist]
          simp only [hp]
        · intro hne
          have hp : mergePatchGenerate v.entry s2.entry ≠ none := by
            rw [Ne, mergePatchGenerate_eq_none_iff, ← hentry]
            exact hne
          match hp2 : mergePatchGenerate v.entry s2.entry with
          | none => exact absurd hp2 hp
          | some p =>
            refine ⟨p, ?_, ?_⟩
            · rw [hentry]
              exact hp2
            · rw [hhist]
              simp only [hp2]

/-- Example output of `Items.prepare` for the example candidate with no
source item, at time `t0` with freshness counter 3. -/
def exAdded : Item :=
  { id := UUID 3, title := "", origins := [], tags := [],
    entry := { kind := "login", username := "foo", password := "bar", notes := "" },
    disabled := false, created := "t0", modified := "t0", history := [] }

/-- Witness for C8: preparing the example candidate with no source yields
an item with empty history. -/
theorem C8_prepare_history_bounded_witness :
    Items.prepare exCand none "t0" 3 = .ok (exAdded, 4) ∧ exAdded.history = [] :=
  ⟨by rfl,
   (C8_prepare_history_bounded exCand none "t0" 3 exAdded 4 (by rfl)).2.1 rfl⟩

/-- C9 counterexample: a bucket whose on-disk version is 0.1 does not
match the expected `DATABASE_VERSION` 0.2, yet `localdatabase.open`
succeeds — Dexie applies the declared 0.1 to 0.2 upgrade instead of
failing (exactly the migration scenario the repository tests exercise).
Versions are in tenths: 1 is 0.1, 2 is 0.2. -/
theorem C9_version_mismatch_counterexample :
    localdbOpen 1 = .ok 2 ∧ (1 : Nat) ≠ DATABASE_VERSION :=
  ⟨rfl, by decide⟩

/-- C9 (amended): opening fails with a `DataStoreError` of reason
`LOCALDB_VERSION` exactly when the on-disk database version is newer than
the highest version the code declares; an on-disk version at or below the
declared version opens successfully (older versions are upgraded in
place). -/
theorem C9_open_version_behavior (onDisk : Nat) :
    (DATABASE_VERSION < onDisk →
      localdbOpen onDisk = .error (.ds .LOCALDB_VERSION none)) ∧
    (onDisk ≤ DATABASE_VERSION →
      localdbOpen onDisk = .ok DATABASE_VERSION) := by
  constructor
  · intro h
    simp [localdbOpen, dexieOpen, h]
  · intro h
    simp [localdbOpen, dexieOpen, Nat.not_lt.mpr h]

/-- Witness for the amended C9: an on-disk version 0.3 fails with
`LOCALDB_VERSION`; the current version 0.2 opens. -/
theorem C9_open_version_behavior_witness :
    localdbOpen 3 = .error (.ds .LOCALDB_VERSION none) ∧ localdbOpen 2 = .ok 2 :=
  ⟨(C9_open_version_behavior 3).1 (by decide),
   (C9_open_version_behavior 2).2 (by decide)⟩

/-- C6: on an initialized, unlocked store, removing an id with no stored
row returns `null` with the store state returned untouched (no error and
no write); removing a stored, decryptable row returns the decrypted item,
and the single transaction both deletes the item row and puts the
registry row whose re-encrypted blob no longer contains the key for that
id (the key was deleted from the listing before the save). -/
theorem C6_remove_semantics (st : DataStore) (id : String)
    (hInit : st.initialized = true) (hUnlocked : st.locked = false) :
    (getKV st.ldb.items id = none → st.remove id = (st, .ok none)) ∧
    (∀ r key, getKV st.ldb.items id = some r →
      st.keystore.get id = some key →
      r.encrypted.key = key →
      ∃ ks2, (st.keystore.delete id).save = .ok ks2 ∧
        ks2.listing = delKV st.keystore.listing id ∧
        (∃ blob, ks2.encrypted = some blob ∧
          blob.payload = delKV st.keystore.listing id) ∧
        st.remove id =
          ({ st with
             keystore := ks2,
             ldb := { items := delKV st.ldb.items id,
                      keystores := setKV st.ldb.keystores ks2.group ks2.toJSON } },
           .ok (some r.encrypted.payload))) := by
  cases hmk : st.keystore.encryptKey with
  | none =>
    rw [DataStore.locked, hmk] at hUnlocked
    simp at hUnlocked
  | some mk =>
    constructor
    · intro hnone
      simp [DataStore.remove, checkState, hInit, hUnlocked, hnone]
    · intro r key hr hkey henc
      refine ⟨{ (st.keystore.delete id) with
                encrypted := some { key := mk,
                                    payload := delKV st.keystore.listing id } },
              ?_, ?_, ?_, ?_⟩
      · simp [ItemKeyStore.save, ItemKeyStore.delete, hmk]
      · simp [ItemKeyStore.delete]
      · exact ⟨_, rfl, rfl⟩
      · simp [DataStore.remove, checkState, hInit, hUnlocked, hr,
              ItemKeyStore.unprotect, hkey, henc, ItemKeyStore.delete,
              ItemKeyStore.save, hmk]

/-- Witness for C6: removing an absent id from the example store, and
removing the stored example item. -/
theorem C6_remove_semantics_witness :
    exStore.remove "zzz" = (exStore, .ok none) ∧
    (exStore.remove "item-1").2 = .ok (some exItem) := by
  constructor
  · exact (C6_remove_semantics exStore "zzz" (by decide) (by decide)).1 (by rfl)
  · obtain ⟨ks2, hsave, hlist, hblob, heq⟩ :=
      (C6_remove_semantics exStore "item-1" (by decide) (by decide)).2
        exRec exKey (by rfl) (by rfl) (by rfl)
    rw [heq]
    rfl

/-- C7: a successful update of an existing item writes only the item row.
Under the store invariant that the stored ciphertext for `id` decrypts
under the listed item key and carries `id` as its inner item id, the new
state differs from the old one in exactly the `items` row for `id`, which
is re-encrypted under the very key that already existed for that id (no
rotation): the in-memory keystore is unchanged (`protect` finds the key
and `add` returns it as is), the keystores table is unchanged, and the
persisted registry blob is unchanged — update performs no keystore save
and no keystores put. -/
theorem C7_update_frame (st : DataStore) (now : String) (c : Candidate)
    (id : String) (r : DbRecord) (key : JWK) (it : Item) (fresh1 : Nat)
    (hcid : c.id = some id) (hid : id ≠ "")
    (hr : getKV st.ldb.items id = some r)
    (hkey : st.keystore.get id = some key)
    (henc : r.encrypted.key = key)
    (hinner : r.encrypted.payload.id = id)
    (hInit : st.initialized = true) (hUnlocked : st.locked = false)
    (hprep : Items.prepare c (some r.encrypted.payload) now st.fresh = .ok (it, fresh1)) :
    st.update (some c) now =
      ({ st with
         ldb := { st.ldb with
                  items := setKV st.ldb.items id
                    { active := if it.disabled then "" else "active",
                      encrypted := { key := key, payload := it } } } },
       .ok it) := by
  obtain ⟨hitid, hfr⟩ :=
    Items.prepare_id_of_source c r.encrypted.payload now st.fresh it fresh1
      (by rw [hinner]; exact hid) hprep
  rw [hinner] at hitid
  subst hfr
  have hadd := ItemKeyStore.add_of_get_some st.keystore st.fresh id key hkey
  simp [DataStore.update, checkState, hInit, hUnlocked, hcid, hid, hr,
        ItemKeyStore.unprotect, hkey, henc, hprep, ItemKeyStore.protect,
        hitid, hadd]

/-- Example update candidate: same item id, new password. -/
def exCandU : Candidate :=
  { id := some "item-1",
    entry := some { kind := some "login", username := some "foo",
                    password := some "baz", notes := none } }

/-- Example result of updating the stored example item with `exCandU` at
time `t1`: same id and key, refreshed `modified`, and one reverse
merge-patch history element restoring the old password. -/
def exUpdated : Item :=
  { id := "item-1", title := "", origins := [], tags := [],
    entry := { kind := "login", username := "foo", password := "baz", notes := "" },
    disabled := false, created := "2018-01-01", modified := "t1",
    history := [{ created := "t1",
                  patch := { kind := none, username := none,
                             password := some "bar", notes := none } }] }

/-- Witness for C7: updating the example store re-encrypts under the
existing example key and touches only the item row. -/
theorem C7_update_frame_witness :
    exStore.update (some exCandU) "t1" =
      ({ exStore with
         ldb := { exStore.ldb with
                  items := setKV exStore.ldb.items "item-1"
                    { active := if exUpdated.disabled then "" else "active",
                      encrypted := { key := exKey, payload := exUpdated } } } },
       .ok exUpdated) :=
  C7_update_frame exStore "t1" exCandU "item-1" exRec exKey exUpdated 10
    (by rfl) (by decide) (by rfl) (by rfl) (by rfl) (by rfl)
    (by decide) (by decide) (by rfl)

/-- C2: rebasing an initialized, unlocked store to a new application key
reads the full item-key listing out first and carries it into the new
registry; the operation rewrites only the registry row of the keystores
table (re-encrypted under the newly derived key) and leaves every item
row — hence every stored item ciphertext — untouched.  Afterwards, every
item that was retrievable before is still retrievable with identical
content via `get` after `lock()` followed by `unlock(newKey)`. -/
theorem C2_rebase_preserves_items (st : DataStore) (newKey : String)
    (hInit : st.initialized = true) (hUnlocked : st.locked = false) :
    ∃ st1, st.initialize { appKey := some newKey, salt := none, rebase := true } =
        (st1, .ok ()) ∧
      st1.ldb.items = st.ldb.items ∧
      st1.keystore.listing = st.keystore.listing ∧
      st1.salt = st.salt ∧
      (∃ blob, st1.keystore.encrypted = some blob ∧
        blob.payload = st.keystore.listing ∧
        st1.ldb.keystores =
          setKV st.ldb.keystores "" { group := "", encrypted := some blob }) ∧
      (∀ id item, (st.get id).2 = .ok (some item) →
        ((st1.lock).unlock (some newKey)).1.get id =
          (((st1.lock).unlock (some newKey)).1, .ok (some item))) := by
  have hEnc : st.keystore.encrypted.isSome = true := hInit
  have hstep : st.initialize { appKey := some newKey, salt := none, rebase := true } =
      ({ st with
         keystore :=
           { encryptKey := some { material := .derivedEncrypt newKey st.salt, kid := "" },
             hashingKey := some { material := .derivedHashing newKey st.salt, kid := "" },
             group := "",
             encrypted := some { key := { material := .derivedEncrypt newKey st.salt, kid := "" },
                                 payload := st.keystore.listing },
             listing := st.keystore.listing },
         ldb := { st.ldb with
                  keystores := setKV st.ldb.keystores ""
                    { group := "",
                      encrypted := some { key := { material := .derivedEncrypt newKey st.salt, kid := "" },
                                          payload := st.keystore.listing } } } },
       .ok ()) := by
    simp [ DataStore.initialize, hEnc, hUnlocked, deriveKeys, ItemKeyStore.save,
          ItemKeyStore.all, ItemKeyStore.toJSON]
  refine ⟨_, hstep, rfl, rfl, rfl, ⟨_, rfl, rfl, rfl⟩, ?_⟩
  intro id item hget
  have hcs : checkState st false = .ok () := by
    simp [checkState, hInit, hUnlocked]
  unfold DataStore.get at hget
  rw [hcs] at hget
  simp only at hget
  match hrow : getKV st.ldb.items id with
  | none =>
    rw [hrow] at hget
    simp at hget
  | some r =>
    rw [hrow] at hget
    unfold ItemKeyStore.unprotect at hget
    match hk : st.keystore.get id with
    | none =>
      rw [hk] at hget
      simp at hget
    | some k =>
      rw [hk] at hget
      by_cases hek : r.encrypted.key = k
      · simp only [hek, if_true, if_pos] at hget
        have hitem : r.encrypted.payload = item := by
          simpa using hget
        have hk2 : getKV st.keystore.listing id = some k := hk
        simp [DataStore.lock, DataStore.unlock, DataStore.get, checkState,
              DataStore.initialized, DataStore.locked, ItemKeyStore.clear,
              ItemKeyStore.load, deriveKeys, ItemKeyStore.unprotect,
              ItemKeyStore.get, hrow, hk2, hek, hitem]
      · simp [hek] at hget

/-- Witness for C2: rebasing the example store to application key "newK"
succeeds, and the stored example item is still retrieved unchanged after
lock and unlock with the new key. -/
theorem C2_rebase_preserves_items_witness :
    ( exStore.initialize { appKey := some "newK", salt := none, rebase := true }).2 =
      .ok () ∧
    (((( exStore.initialize { appKey := some "newK", salt := none, rebase := true
        }).1.lock).unlock (some "newK")).1.get "item-1").2 = .ok (some exItem) := by
  obtain ⟨st1, hstep, hitems, hlist, hsalt, hblob, hpres⟩ :=
    C2_rebase_preserves_items exStore "newK" (by decide) (by decide)
  have h2 := hpres "item-1" exItem (by rfl)
  refine ⟨?_, ?_⟩
  · rw [hstep]
  · rw [hstep]
    have h3 := congrArg Prod.snd h2
    simpa using h3
